import Mathlib

/-!
Verification of the libnds FIFO wire format (`source/common/fifo_private.h`)
and the exit/reset coordinator (`source/common/libnds_exit.c`).

Transport words are modelled as natural numbers; every C `uint32_t`
computation that can overflow is reduced modulo `2 ^ 32` exactly where the
C semantics wraps.  The function and constant names follow the source.
-/

namespace LibndsFifo

/-! ## Constants from fifo_private.h -/

def FIFO_CHANNEL_BITS : Nat := 4

def FIFO_NUM_CHANNELS : Nat := 1 <<< FIFO_CHANNEL_BITS

def FIFO_CHANNEL_SHIFT : Nat := 32 - FIFO_CHANNEL_BITS

def FIFO_CHANNEL_MASK : Nat := (1 <<< FIFO_CHANNEL_BITS) - 1

def FIFO_ADDRESSBIT_SHIFT : Nat := FIFO_CHANNEL_SHIFT - 1

def FIFO_ADDRESSBIT : Nat := 1 <<< FIFO_ADDRESSBIT_SHIFT

def FIFO_IMMEDIATEBIT_SHIFT : Nat := FIFO_ADDRESSBIT_SHIFT - 1

def FIFO_IMMEDIATEBIT : Nat := 1 <<< FIFO_IMMEDIATEBIT_SHIFT

def FIFO_EXTRABIT_SHIFT : Nat := FIFO_IMMEDIATEBIT_SHIFT - 1

def FIFO_EXTRABIT : Nat := 1 <<< FIFO_EXTRABIT_SHIFT

def FIFO_VALUE32_MASK : Nat := FIFO_EXTRABIT - 1

def FIFO_ADDRESSDATA_SHIFT : Nat := 0

def FIFO_MINADDRESSDATABITS : Nat := 24

def FIFO_ADDRESSDATA_MASK : Nat := 0x00FFFFFF

def FIFO_ADDRESSBASE : Nat := 0x02000000

def FIFO_ADDRESSCOMPATIBLE : Nat := 0xFF000000

def FIFO_SPECIAL_COMMAND_MASK : Nat := 0x00FFFFFF

def FIFO_ARM9_REQUESTS_ARM7_RESET : Nat := 0x4000C

def FIFO_ARM7_REQUESTS_ARM9_RESET : Nat := 0x4000B

/-- 32-bit one's complement, modelling C `~x` evaluated at `uint32_t`. -/
def NOT32 (x : Nat) : Nat := 0xFFFFFFFF ^^^ x

/-! ## Codec functions from fifo_private.h

Each definition transcribes the body of the C `static inline` function of
the same name; `uint32_t` left shifts of the channel are wrapped modulo
`2 ^ 32` as in C. -/

def FIFO_UNPACK_CHANNEL (dataword : Nat) : Nat :=
  (dataword >>> FIFO_CHANNEL_SHIFT) &&& FIFO_CHANNEL_MASK

def FIFO_IS_VALUE32 (dataword : Nat) : Bool :=
  ((dataword &&& FIFO_ADDRESSBIT) == 0) && ((dataword &&& FIFO_IMMEDIATEBIT) != 0)

def FIFO_VALUE32_NEEDEXTRA (value32 : Nat) : Bool :=
  (value32 &&& NOT32 FIFO_VALUE32_MASK) != 0

def FIFO_UNPACK_VALUE32_NEEDEXTRA (dataword : Nat) : Bool :=
  (dataword &&& FIFO_EXTRABIT) != 0

def FIFO_PACK_VALUE32 (channel value32 : Nat) : Nat :=
  ((channel <<< FIFO_CHANNEL_SHIFT) % 2 ^ 32) ||| FIFO_IMMEDIATEBIT |||
    (value32 &&& FIFO_VALUE32_MASK)

def FIFO_UNPACK_VALUE32_NOEXTRA (dataword : Nat) : Nat :=
  dataword &&& FIFO_VALUE32_MASK

def FIFO_PACK_VALUE32_EXTRA (channel : Nat) : Nat :=
  ((channel <<< FIFO_CHANNEL_SHIFT) % 2 ^ 32) ||| FIFO_IMMEDIATEBIT ||| FIFO_EXTRABIT

def FIFO_PACK_ADDRESS (channel address : Nat) : Nat :=
  ((channel <<< FIFO_CHANNEL_SHIFT) % 2 ^ 32) ||| FIFO_ADDRESSBIT |||
    ((address >>> FIFO_ADDRESSDATA_SHIFT) &&& FIFO_ADDRESSDATA_MASK)

def FIFO_IS_ADDRESS_COMPATIBLE (address : Nat) : Bool :=
  (address &&& FIFO_ADDRESSCOMPATIBLE) == FIFO_ADDRESSBASE

def FIFO_IS_ADDRESS (dataword : Nat) : Bool :=
  (dataword &&& FIFO_ADDRESSBIT) != 0

def FIFO_UNPACK_ADDRESS (dataword : Nat) : Nat :=
  ((dataword &&& FIFO_ADDRESSDATA_MASK) <<< FIFO_ADDRESSDATA_SHIFT) ||| FIFO_ADDRESSBASE

def FIFO_PACK_DATAMSG_HEADER (channel numbytes : Nat) : Nat :=
  ((channel <<< FIFO_CHANNEL_SHIFT) % 2 ^ 32) ||| (numbytes &&& FIFO_VALUE32_MASK)

def FIFO_IS_DATA (dataword : Nat) : Bool :=
  (dataword &&& (FIFO_ADDRESSBIT ||| FIFO_IMMEDIATEBIT)) == 0

def FIFO_UNPACK_DATALENGTH (dataword : Nat) : Nat :=
  dataword &&& FIFO_VALUE32_MASK

def FIFO_IS_SPECIAL_COMMAND (dataword : Nat) : Bool :=
  ((dataword &&& FIFO_ADDRESSBIT) != 0) && ((dataword &&& FIFO_IMMEDIATEBIT) != 0)

/-! ## Classification -/

/-- The five payload kinds a transport word can encode (spec §3). -/
inductive MessageKind where
  | SmallImmediate
  | LargeImmediateHeader
  | Address
  | DataHeader
  | SpecialCommand
deriving DecidableEq, Repr

/-- Modelled from the spec: `classify` (spec §4.1) — the dispatch function of
the receive path is not under `src/`; it is built here from the source's bit
predicates, testing the special-command combination (both address-bit and
immediate-bit) before the single-bit tests, in the fixed precedence the spec
states. -/
def classify (w : Nat) : MessageKind :=
  if FIFO_IS_SPECIAL_COMMAND w then MessageKind.SpecialCommand
  else if FIFO_IS_VALUE32 w then
    if FIFO_UNPACK_VALUE32_NEEDEXTRA w then MessageKind.LargeImmediateHeader
    else MessageKind.SmallImmediate
  else if FIFO_IS_ADDRESS w then MessageKind.Address
  else MessageKind.DataHeader

/-! ## Exit / reset coordinator (libnds_exit.c, ARM7 role)

`__libnds_exit` is embedded as a pure function from its inputs (the exit
code, the boot descriptor and the firmware signature constant) to the list
of observable actions it performs, in order.  The terminal `while (1);` is
represented by the trailing `haltLoop` event: the trace is everything the
function ever does. -/

/-- Observable actions of `__libnds_exit` on the ARM7 (coprocessor) role. -/
inductive ExitEvent where
  /-- A call to the weak hook `systemErrorExit(rc)`. -/
  | errorExit (rc : Int)
  /-- A call to `fifoInternalSend(firstword, extrawordcount, wordlist)`;
  `none` models a NULL word list. -/
  | fifoSend (firstword : Nat) (extrawordcount : Nat) (wordlist : Option (List Nat))
  /-- A call to `systemShutDown()`. -/
  | shutDown
  /-- Entering the terminal `while (1);` spin. -/
  | haltLoop
deriving DecidableEq, Repr

def ExitEvent.isSend : ExitEvent → Bool
  | .fifoSend _ _ _ => true
  | _ => false

def ExitEvent.isError : ExitEvent → Bool
  | .errorExit _ => true
  | _ => false

def ExitEvent.isShutDown : ExitEvent → Bool
  | .shutDown => true
  | _ => false

/-- The part of `struct __bootstub` that the ARM7 path of `__libnds_exit`
reads: only the `bootsig` field.  The structure itself is declared outside
`src/`; its reboot entry points are not touched on this path. -/
structure Bootstub where
  bootsig : Nat

/-- The special-command word built by `__libnds_exit` on the ARM7:
`FIFO_ADDRESSBIT | FIFO_IMMEDIATEBIT | FIFO_ARM7_REQUESTS_ARM9_RESET`. -/
def arm7ResetCommand : Nat :=
  FIFO_ADDRESSBIT ||| FIFO_IMMEDIATEBIT ||| FIFO_ARM7_REQUESTS_ARM9_RESET

/-- Trace of `__libnds_exit(rc)` compiled for the ARM7 role
(`libnds_exit.c`): report the error if `rc != 0`, then either send the
reset request (signature matches) or shut down (it does not), then spin
forever.  `BOOTSIG` is the firmware signature constant, declared outside
`src/` and kept abstract. -/
def libnds_exit_arm7 (rc : Int) (bootcode : Bootstub) (BOOTSIG : Nat) : List ExitEvent :=
  (if rc != 0 then [ExitEvent.errorExit rc] else []) ++
  (if bootcode.bootsig == BOOTSIG then
      [ExitEvent.fifoSend arm7ResetCommand 0 none]
    else
      [ExitEvent.shutDown]) ++
  [ExitEvent.haltLoop]

/-! ## Helper lemmas about `Nat` bit manipulation -/

/-- When the set bits of `a` and `b` are separated at position `n`,
bitwise or is addition. -/
theorem lor_eq_add_of_disjoint {n : Nat} (a b : Nat) (ha : a % 2 ^ n = 0)
    (hb : b < 2 ^ n) : a ||| b = a + b := by
  obtain ⟨q, hq⟩ := Nat.dvd_of_mod_eq_zero ha
  subst hq
  exact (Nat.mul_add_lt_is_or hb q).symm

/-- A value below `2 ^ n` shares no bits with a multiple of `2 ^ n`. -/
theorem and_eq_zero_of_disjoint {n : Nat} (a b : Nat) (ha : a < 2 ^ n)
    (hb : b % 2 ^ n = 0) : a &&& b = 0 := by
  obtain ⟨q, hq⟩ := Nat.dvd_of_mod_eq_zero hb
  subst hq
  apply Nat.eq_of_testBit_eq
  intro i
  rw [Nat.testBit_land, Nat.zero_testBit]
  rcases Nat.lt_or_ge i n with h | h
  · have hbit : (2 ^ n * q).testBit i = false := by
      rw [Nat.mul_comm, ← Nat.shiftLeft_eq, Nat.testBit_shiftLeft]
      simp [Nat.not_le.mpr h]
    simp [hbit]
  · have hbit : a.testBit i = false :=
      Nat.testBit_lt_two_pow (lt_of_lt_of_le ha (Nat.pow_le_pow_right (by omega) h))
    simp [hbit]

/-- Masking with the high bits `2 ^ 32 - 2 ^ n` keeps exactly the part of
`v` above position `n`. -/
theorem and_high_mask {n : Nat} (v : Nat) (hn : n ≤ 32) (hv : v < 2 ^ 32) :
    v &&& (2 ^ 32 - 2 ^ n) = v / 2 ^ n * 2 ^ n := by
  apply Nat.eq_of_testBit_eq
  intro i
  have hdiv : v / 2 ^ n * 2 ^ n = (v >>> n) <<< n := by
    rw [Nat.shiftRight_eq_div_pow, Nat.shiftLeft_eq]
  have hmask : 2 ^ 32 - 2 ^ n = (2 ^ (32 - n) - 1) <<< n := by
    rw [Nat.shiftLeft_eq, Nat.sub_mul, ← Nat.pow_add, one_mul]
    congr 2
    omega
  rw [Nat.testBit_land, hdiv, hmask, Nat.testBit_shiftLeft, Nat.testBit_shiftLeft,
    Nat.testBit_shiftRight, Nat.testBit_two_pow_sub_one]
  rcases Nat.lt_or_ge i n with h | h
  · simp [Nat.not_le.mpr h]
  · have hni : n + (i - n) = i := by omega
    rw [hni]
    rcases Nat.lt_or_ge i 32 with h32 | h32
    · have : decide (i - n < 32 - n) = true := by simp; omega
      simp [this, Nat.le_of_lt, h, Bool.and_comm]
    · have hvb : v.testBit i = false :=
        Nat.testBit_lt_two_pow (lt_of_lt_of_le hv (Nat.pow_le_pow_right (by omega) h32))
      simp [hvb]

/-- A single-bit mask extracts the bit as a `0 / 2 ^ i` value. -/
theorem and_two_pow_eq_zero_iff (x i : Nat) :
    x &&& 2 ^ i = 0 ↔ x / 2 ^ i % 2 = 0 := by
  rw [Nat.and_two_pow, Nat.testBit_to_div_mod]
  have hpos : 2 ^ i ≠ 0 := Nat.pos_iff_ne_zero.mp (Nat.two_pow_pos i)
  rcases Nat.mod_two_eq_zero_or_one (x / 2 ^ i) with h | h <;> simp [h, hpos]

theorem and_two_pow_ne_zero_iff (x i : Nat) :
    x &&& 2 ^ i ≠ 0 ↔ x / 2 ^ i % 2 = 1 := by
  rw [Ne, and_two_pow_eq_zero_iff]
  omega

theorem lor_eq_zero_iff (a b : Nat) : a ||| b = 0 ↔ a = 0 ∧ b = 0 := by
  constructor
  · intro h
    have hbit : ∀ i, a.testBit i = false ∧ b.testBit i = false := by
      intro i
      have hi := congrArg (fun x => Nat.testBit x i) h
      simpa [Nat.testBit_lor] using hi
    exact ⟨Nat.eq_of_testBit_eq fun i => by simp [(hbit i).1],
           Nat.eq_of_testBit_eq fun i => by simp [(hbit i).2]⟩
  · rintro ⟨rfl, rfl⟩
    simp

/-! ## Arithmetic normal forms of the codec functions -/

theorem channel_shift_eq (c : Nat) :
    (c <<< FIFO_CHANNEL_SHIFT) % 2 ^ 32 = c % 16 * 2 ^ 28 := by
  rw [show FIFO_CHANNEL_SHIFT = 28 from rfl, Nat.shiftLeft_eq,
    show (2 : Nat) ^ 32 = 16 * 2 ^ 28 by norm_num, Nat.mul_mod_mul_right]

theorem pack_value32_eq (c v : Nat) :
    FIFO_PACK_VALUE32 c v = c % 16 * 2 ^ 28 + 2 ^ 26 + v % 2 ^ 25 := by
  unfold FIFO_PACK_VALUE32
  rw [channel_shift_eq, show FIFO_VALUE32_MASK = 2 ^ 25 - 1 by decide,
    show FIFO_IMMEDIATEBIT = 2 ^ 26 by decide, Nat.and_pow_two_sub_one_eq_mod]
  have h1 : c % 16 * 2 ^ 28 ||| 2 ^ 26 = c % 16 * 2 ^ 28 + 2 ^ 26 :=
    lor_eq_add_of_disjoint (n := 28) _ _ (by omega) (by norm_num)
  have h2 : c % 16 * 2 ^ 28 + 2 ^ 26 ||| v % 2 ^ 25 =
      c % 16 * 2 ^ 28 + 2 ^ 26 + v % 2 ^ 25 :=
    lor_eq_add_of_disjoint (n := 26) _ _ (by omega) (by omega)
  rw [h1, h2]

theorem pack_value32_extra_eq (c : Nat) :
    FIFO_PACK_VALUE32_EXTRA c = c % 16 * 2 ^ 28 + 2 ^ 26 + 2 ^ 25 := by
  unfold FIFO_PACK_VALUE32_EXTRA
  rw [channel_shift_eq, show FIFO_IMMEDIATEBIT = 2 ^ 26 by decide,
    show FIFO_EXTRABIT = 2 ^ 25 by decide]
  have h1 : c % 16 * 2 ^ 28 ||| 2 ^ 26 = c % 16 * 2 ^ 28 + 2 ^ 26 :=
    lor_eq_add_of_disjoint (n := 28) _ _ (by omega) (by norm_num)
  have h2 : c % 16 * 2 ^ 28 + 2 ^ 26 ||| 2 ^ 25 =
      c % 16 * 2 ^ 28 + 2 ^ 26 + 2 ^ 25 :=
    lor_eq_add_of_disjoint (n := 26) _ _ (by omega) (by omega)
  rw [h1, h2]

theorem pack_address_eq (c a : Nat) :
    FIFO_PACK_ADDRESS c a = c % 16 * 2 ^ 28 + 2 ^ 27 + a % 2 ^ 24 := by
  unfold FIFO_PACK_ADDRESS
  rw [channel_shift_eq, show FIFO_ADDRESSDATA_SHIFT = 0 from rfl,
    show FIFO_ADDRESSDATA_MASK = 2 ^ 24 - 1 by decide,
    show FIFO_ADDRESSBIT = 2 ^ 27 by decide, Nat.shiftRight_zero,
    Nat.and_pow_two_sub_one_eq_mod]
  have h1 : c % 16 * 2 ^ 28 ||| 2 ^ 27 = c % 16 * 2 ^ 28 + 2 ^ 27 :=
    lor_eq_add_of_disjoint (n := 28) _ _ (by omega) (by norm_num)
  have h2 : c % 16 * 2 ^ 28 + 2 ^ 27 ||| a % 2 ^ 24 =
      c % 16 * 2 ^ 28 + 2 ^ 27 + a % 2 ^ 24 :=
    lor_eq_add_of_disjoint (n := 27) _ _ (by omega) (by omega)
  rw [h1, h2]

theorem pack_datamsg_eq (c n : Nat) :
    FIFO_PACK_DATAMSG_HEADER c n = c % 16 * 2 ^ 28 + n % 2 ^ 25 := by
  unfold FIFO_PACK_DATAMSG_HEADER
  rw [channel_shift_eq, show FIFO_VALUE32_MASK = 2 ^ 25 - 1 by decide,
    Nat.and_pow_two_sub_one_eq_mod]
  exact lor_eq_add_of_disjoint (n := 28) _ _ (by omega) (by omega)

theorem unpack_value32_noextra_eq (w : Nat) :
    FIFO_UNPACK_VALUE32_NOEXTRA w = w % 2 ^ 25 := by
  unfold FIFO_UNPACK_VALUE32_NOEXTRA
  rw [show FIFO_VALUE32_MASK = 2 ^ 25 - 1 by decide, Nat.and_pow_two_sub_one_eq_mod]

theorem unpack_datalength_eq (w : Nat) :
    FIFO_UNPACK_DATALENGTH w = w % 2 ^ 25 := by
  unfold FIFO_UNPACK_DATALENGTH
  rw [show FIFO_VALUE32_MASK = 2 ^ 25 - 1 by decide, Nat.and_pow_two_sub_one_eq_mod]

theorem unpack_channel_eq (w : Nat) :
    FIFO_UNPACK_CHANNEL w = w / 2 ^ 28 % 2 ^ 4 := by
  unfold FIFO_UNPACK_CHANNEL
  rw [show FIFO_CHANNEL_MASK = 2 ^ 4 - 1 by decide,
    show FIFO_CHANNEL_SHIFT = 28 from rfl, Nat.shiftRight_eq_div_pow,
    Nat.and_pow_two_sub_one_eq_mod]

theorem unpack_address_eq (w : Nat) :
    FIFO_UNPACK_ADDRESS w = 2 ^ 25 + w % 2 ^ 24 := by
  unfold FIFO_UNPACK_ADDRESS
  rw [show FIFO_ADDRESSDATA_SHIFT = 0 from rfl,
    show FIFO_ADDRESSDATA_MASK = 2 ^ 24 - 1 by decide,
    show FIFO_ADDRESSBASE = 2 ^ 25 by decide, Nat.shiftLeft_zero,
    Nat.and_pow_two_sub_one_eq_mod, Nat.lor_comm]
  exact lor_eq_add_of_disjoint (n := 24) _ _ (by omega) (by omega)

/-! ## Bit characterizations of the classification predicates -/

theorem is_value32_iff (w : Nat) :
    FIFO_IS_VALUE32 w = true ↔ w / 2 ^ 27 % 2 = 0 ∧ w / 2 ^ 26 % 2 = 1 := by
  unfold FIFO_IS_VALUE32
  rw [show FIFO_ADDRESSBIT = 2 ^ 27 by decide,
    show FIFO_IMMEDIATEBIT = 2 ^ 26 by decide]
  simp only [Bool.and_eq_true, beq_iff_eq, bne_iff_ne]
  rw [and_two_pow_eq_zero_iff, and_two_pow_ne_zero_iff]

theorem is_address_iff (w : Nat) :
    FIFO_IS_ADDRESS w = true ↔ w / 2 ^ 27 % 2 = 1 := by
  unfold FIFO_IS_ADDRESS
  rw [show FIFO_ADDRESSBIT = 2 ^ 27 by decide]
  simp only [bne_iff_ne]
  exact and_two_pow_ne_zero_iff w 27

theorem is_special_iff (w : Nat) :
    FIFO_IS_SPECIAL_COMMAND w = true ↔ w / 2 ^ 27 % 2 = 1 ∧ w / 2 ^ 26 % 2 = 1 := by
  unfold FIFO_IS_SPECIAL_COMMAND
  rw [show FIFO_ADDRESSBIT = 2 ^ 27 by decide,
    show FIFO_IMMEDIATEBIT = 2 ^ 26 by decide]
  simp only [Bool.and_eq_true, bne_iff_ne]
  rw [and_two_pow_ne_zero_iff, and_two_pow_ne_zero_iff]

theorem is_data_iff (w : Nat) :
    FIFO_IS_DATA w = true ↔ w / 2 ^ 27 % 2 = 0 ∧ w / 2 ^ 26 % 2 = 0 := by
  unfold FIFO_IS_DATA
  rw [show FIFO_ADDRESSBIT = 2 ^ 27 by decide,
    show FIFO_IMMEDIATEBIT = 2 ^ 26 by decide, Nat.and_or_distrib_left]
  simp only [beq_iff_eq, lor_eq_zero_iff]
  rw [and_two_pow_eq_zero_iff, and_two_pow_eq_zero_iff]

theorem unpack_needextra_iff (w : Nat) :
    FIFO_UNPACK_VALUE32_NEEDEXTRA w = true ↔ w / 2 ^ 25 % 2 = 1 := by
  unfold FIFO_UNPACK_VALUE32_NEEDEXTRA
  rw [show FIFO_EXTRABIT = 2 ^ 25 by decide]
  simp only [bne_iff_ne]
  exact and_two_pow_ne_zero_iff w 25

/-! ## Claim theorems -/

/-- C2: small-immediate round-trip — for every channel `c < 16` and value
`v < 2 ^ 25`, unpacking `FIFO_PACK_VALUE32 c v` returns `v`, the unpacked
channel is `c`, and the packed word classifies as an immediate with the
extra-bit clear. -/
theorem value32_roundtrip (c v : Nat) (hc : c < 16) (hv : v < 2 ^ 25) :
    FIFO_UNPACK_VALUE32_NOEXTRA (FIFO_PACK_VALUE32 c v) = v ∧
    FIFO_UNPACK_CHANNEL (FIFO_PACK_VALUE32 c v) = c ∧
    FIFO_IS_VALUE32 (FIFO_PACK_VALUE32 c v) = true ∧
    FIFO_UNPACK_VALUE32_NEEDEXTRA (FIFO_PACK_VALUE32 c v) = false := by
  rw [unpack_value32_noextra_eq, unpack_channel_eq, pack_value32_eq]
  refine ⟨by omega, by omega, ?_, ?_⟩
  · rw [is_value32_iff]
    omega
  · rw [Bool.eq_false_iff, Ne, unpack_needextra_iff]
    omega

/-- Witness for C2 at the spec's example vector `channel 3, value 42`. -/
theorem value32_roundtrip_witness :
    (3 : Nat) < 16 ∧ (42 : Nat) < 2 ^ 25 ∧
    (FIFO_UNPACK_VALUE32_NOEXTRA (FIFO_PACK_VALUE32 3 42) = 42 ∧
     FIFO_UNPACK_CHANNEL (FIFO_PACK_VALUE32 3 42) = 3 ∧
     FIFO_IS_VALUE32 (FIFO_PACK_VALUE32 3 42) = true ∧
     FIFO_UNPACK_VALUE32_NEEDEXTRA (FIFO_PACK_VALUE32 3 42) = false) :=
  ⟨by decide, by decide, value32_roundtrip 3 42 (by decide) (by decide)⟩

/-- C3: the extra-word fit test is exactly a 25-bit width test — for every
32-bit `v`, `FIFO_VALUE32_NEEDEXTRA v` is false iff `v < 2 ^ 25`,
equivalently it is true iff the bits of `v` at position 25 and above are
non-zero. -/
theorem needextra_width_test (v : Nat) (hv : v < 2 ^ 32) :
    (FIFO_VALUE32_NEEDEXTRA v = false ↔ v < 2 ^ 25) ∧
    (FIFO_VALUE32_NEEDEXTRA v = true ↔ v / 2 ^ 25 ≠ 0) := by
  unfold FIFO_VALUE32_NEEDEXTRA
  rw [show NOT32 FIFO_VALUE32_MASK = 2 ^ 32 - 2 ^ 25 by decide,
    and_high_mask v (by norm_num) hv]
  simp only [bne_eq_false_iff_eq, bne_iff_ne]
  omega

/-- Witness for C3 at the exact boundary values `2 ^ 25 - 1` and `2 ^ 25`. -/
theorem needextra_width_test_witness :
    ((2 ^ 25 - 1 : Nat) < 2 ^ 32 ∧
      (FIFO_VALUE32_NEEDEXTRA (2 ^ 25 - 1) = false ↔ (2 ^ 25 - 1 : Nat) < 2 ^ 25)) ∧
    ((2 ^ 25 : Nat) < 2 ^ 32 ∧
      (FIFO_VALUE32_NEEDEXTRA (2 ^ 25) = true ↔ (2 ^ 25 : Nat) / 2 ^ 25 ≠ 0)) :=
  ⟨⟨by norm_num, (needextra_width_test (2 ^ 25 - 1) (by norm_num)).1⟩,
   ⟨by norm_num, (needextra_width_test (2 ^ 25) (by norm_num)).2⟩⟩

/-- C4: address round-trip under the window precondition — for `c < 16` and
a 32-bit address `a` inside the `0x02xxxxxx` window, unpacking the packed
address word returns `a` exactly; and any address outside that window is
reported incompatible. -/
theorem address_roundtrip_window (c a : Nat) (hc : c < 16) (ha : a < 2 ^ 32)
    (hcompat : FIFO_IS_ADDRESS_COMPATIBLE a = true) :
    FIFO_UNPACK_ADDRESS (FIFO_PACK_ADDRESS c a) = a ∧
    (∀ b : Nat, b &&& FIFO_ADDRESSCOMPATIBLE ≠ FIFO_ADDRESSBASE →
      FIFO_IS_ADDRESS_COMPATIBLE b = false) := by
  unfold FIFO_IS_ADDRESS_COMPATIBLE at hcompat
  rw [show FIFO_ADDRESSCOMPATIBLE = 2 ^ 32 - 2 ^ 24 by decide, beq_iff_eq,
    and_high_mask a (by norm_num) ha, show FIFO_ADDRESSBASE = 2 ^ 25 by decide]
    at hcompat
  constructor
  · rw [unpack_address_eq, pack_address_eq]
    omega
  · intro b hb
    unfold FIFO_IS_ADDRESS_COMPATIBLE
    exact beq_eq_false_iff_ne.mpr hb

/-- Witness for C4 at the spec's example vector `channel 0, address
0x02010000`, plus the out-of-window address `0x03000000`. -/
theorem address_roundtrip_window_witness :
    (0 : Nat) < 16 ∧ (0x02010000 : Nat) < 2 ^ 32 ∧
    FIFO_IS_ADDRESS_COMPATIBLE 0x02010000 = true ∧
    FIFO_UNPACK_ADDRESS (FIFO_PACK_ADDRESS 0 0x02010000) = 0x02010000 ∧
    FIFO_IS_ADDRESS_COMPATIBLE 0x03000000 = false := by
  have h := address_roundtrip_window 0 0x02010000 (by decide) (by decide) (by decide)
  exact ⟨by decide, by decide, by decide, h.1, h.2 0x03000000 (by decide)⟩

/-- C5: none of the four normal encoders can produce the reserved
special-command combination, for arbitrary (even out-of-range) channel and
payload arguments: `FIFO_PACK_VALUE32` and `FIFO_PACK_VALUE32_EXTRA` leave
the address-bit clear, `FIFO_PACK_ADDRESS` leaves the immediate-bit clear,
and `FIFO_PACK_DATAMSG_HEADER` leaves both clear. -/
theorem pack_never_special (c v a n : Nat) :
    FIFO_IS_SPECIAL_COMMAND (FIFO_PACK_VALUE32 c v) = false ∧
    FIFO_PACK_VALUE32 c v &&& FIFO_ADDRESSBIT = 0 ∧
    FIFO_IS_SPECIAL_COMMAND (FIFO_PACK_VALUE32_EXTRA c) = false ∧
    FIFO_PACK_VALUE32_EXTRA c &&& FIFO_ADDRESSBIT = 0 ∧
    FIFO_IS_SPECIAL_COMMAND (FIFO_PACK_ADDRESS c a) = false ∧
    FIFO_PACK_ADDRESS c a &&& FIFO_IMMEDIATEBIT = 0 ∧
    FIFO_IS_SPECIAL_COMMAND (FIFO_PACK_DATAMSG_HEADER c n) = false ∧
    FIFO_PACK_DATAMSG_HEADER c n &&& FIFO_ADDRESSBIT = 0 ∧
    FIFO_PACK_DATAMSG_HEADER c n &&& FIFO_IMMEDIATEBIT = 0 := by
  rw [pack_value32_eq, pack_value32_extra_eq, pack_address_eq, pack_datamsg_eq,
    show FIFO_ADDRESSBIT = 2 ^ 27 by decide,
    show FIFO_IMMEDIATEBIT = 2 ^ 26 by decide]
  refine ⟨?_, ?_, ?_, ?_, ?_, ?_, ?_, ?_, ?_⟩ <;>
    first
      | (rw [Bool.eq_false_iff, Ne, is_special_iff]; omega)
      | (rw [and_two_pow_eq_zero_iff]; omega)

/-- C8: silent truncation of over-width immediates — for every channel
`c < 16` and every 32-bit `v` (fit precondition violated or not),
`FIFO_PACK_VALUE32` still produces a well-formed immediate word and
unpacking it returns `v mod 2 ^ 25`: the high 7 bits are lost. -/
theorem pack_value32_truncates (c v : Nat) (hc : c < 16) (hv : v < 2 ^ 32) :
    FIFO_UNPACK_VALUE32_NOEXTRA (FIFO_PACK_VALUE32 c v) = v % 2 ^ 25 ∧
    FIFO_IS_VALUE32 (FIFO_PACK_VALUE32 c v) = true := by
  rw [unpack_value32_noextra_eq, pack_value32_eq]
  refine ⟨by omega, ?_⟩
  rw [is_value32_iff]
  omega

/-- Witness for C8 at the all-ones value `0xFFFFFFFF`, which truncates to
`0x01FFFFFF`. -/
theorem pack_value32_truncates_witness :
    (1 : Nat) < 16 ∧ (0xFFFFFFFF : Nat) < 2 ^ 32 ∧
    (FIFO_UNPACK_VALUE32_NOEXTRA (FIFO_PACK_VALUE32 1 0xFFFFFFFF) =
        0xFFFFFFFF % 2 ^ 25 ∧
      FIFO_IS_VALUE32 (FIFO_PACK_VALUE32 1 0xFFFFFFFF) = true) :=
  ⟨by decide, by decide, pack_value32_truncates 1 0xFFFFFFFF (by decide) (by decide)⟩

/-- C9: the standalone address predicate does not exclude special commands —
every word satisfying `FIFO_IS_SPECIAL_COMMAND` also satisfies
`FIFO_IS_ADDRESS`, while the precedence-respecting `classify` reports
`SpecialCommand` for it. -/
theorem special_command_implies_address (w : Nat)
    (h : FIFO_IS_SPECIAL_COMMAND w = true) :
    FIFO_IS_ADDRESS w = true ∧ classify w = MessageKind.SpecialCommand := by
  constructor
  · rw [is_special_iff] at h
    rw [is_address_iff]
    omega
  · simp [classify, h]

/-- Witness for C9 at the special-command word `0x0C000000`. -/
theorem special_command_implies_address_witness :
    FIFO_IS_SPECIAL_COMMAND 0x0C000000 = true ∧
    (FIFO_IS_ADDRESS 0x0C000000 = true ∧
      classify 0x0C000000 = MessageKind.SpecialCommand) :=
  ⟨by decide, special_command_implies_address 0x0C000000 (by decide)⟩

/-- C10: the address decoder's output always lies inside the main-memory
window — for every word `w`, however malformed, `FIFO_UNPACK_ADDRESS w`
satisfies `FIFO_IS_ADDRESS_COMPATIBLE` and lies in
`[0x02000000, 0x02FFFFFF]`. -/
theorem unpack_address_always_in_window (w : Nat) :
    FIFO_IS_ADDRESS_COMPATIBLE (FIFO_UNPACK_ADDRESS w) = true ∧
    FIFO_ADDRESSBASE ≤ FIFO_UNPACK_ADDRESS w ∧
    FIFO_UNPACK_ADDRESS w ≤ 0x02FFFFFF := by
  rw [unpack_address_eq, show FIFO_ADDRESSBASE = 2 ^ 25 by decide]
  have hlt : 2 ^ 25 + w % 2 ^ 24 < 2 ^ 32 := by omega
  refine ⟨?_, by omega, by omega⟩
  unfold FIFO_IS_ADDRESS_COMPATIBLE
  rw [show FIFO_ADDRESSCOMPATIBLE = 2 ^ 32 - 2 ^ 24 by decide, beq_iff_eq,
    and_high_mask _ (by norm_num) hlt, show FIFO_ADDRESSBASE = 2 ^ 25 by decide]
  omega

/-- C7 counterexample: `0x09000000` classifies as Address (address-bit set,
immediate-bit clear, payload bit 24 set), yet `FIFO_UNPACK_ADDRESS` does
not reconstruct `base | low 25 bits`: the decoder masks with the 24-bit
`FIFO_ADDRESSDATA_MASK`, so bit 24 is dropped. -/
theorem address_payload_25bit_counterexample :
    classify 0x09000000 = MessageKind.Address ∧
    FIFO_UNPACK_ADDRESS 0x09000000 ≠
      FIFO_ADDRESSBASE ||| (0x09000000 &&& (2 ^ 25 - 1)) := by
  constructor
  · decide
  · decide

/-- C7 amended: the address payload is the low 24 bits (bits 23..0), and
for every Address-classified word `FIFO_UNPACK_ADDRESS` reconstructs
`FIFO_ADDRESSBASE | (w & FIFO_ADDRESSDATA_MASK)` where the mask is
`0x00FFFFFF`. -/
theorem address_payload_24bit (w : Nat)
    (hcls : classify w = MessageKind.Address) :
    FIFO_UNPACK_ADDRESS w = FIFO_ADDRESSBASE ||| (w &&& FIFO_ADDRESSDATA_MASK) := by
  unfold FIFO_UNPACK_ADDRESS
  rw [show FIFO_ADDRESSDATA_SHIFT = 0 from rfl, Nat.shiftLeft_zero, Nat.lor_comm]

/-- Witness for the amended C7 at the Address-classified word `0x08010000`. -/
theorem address_payload_24bit_witness :
    classify 0x08010000 = MessageKind.Address ∧
    FIFO_UNPACK_ADDRESS 0x08010000 =
      FIFO_ADDRESSBASE ||| (0x08010000 &&& FIFO_ADDRESSDATA_MASK) :=
  ⟨by decide, address_payload_24bit 0x08010000 (by decide)⟩

/-- C1: classification is exclusive and respects special-command precedence —
for every 32-bit word exactly one `MessageKind` is reported; a word with
both address-bit and immediate-bit set classifies as `SpecialCommand`
whatever its other bits; and each kind is reported exactly on the words the
source bit predicates describe. -/
theorem classify_exclusive (w : Nat) (hw : w < 2 ^ 32) :
    (∃! k : MessageKind, classify w = k) ∧
    (w &&& FIFO_ADDRESSBIT ≠ 0 → w &&& FIFO_IMMEDIATEBIT ≠ 0 →
      classify w = MessageKind.SpecialCommand) ∧
    (classify w = MessageKind.SpecialCommand ↔
      FIFO_IS_SPECIAL_COMMAND w = true) ∧
    (classify w = MessageKind.SmallImmediate ↔
      FIFO_IS_VALUE32 w = true ∧ FIFO_UNPACK_VALUE32_NEEDEXTRA w = false) ∧
    (classify w = MessageKind.LargeImmediateHeader ↔
      FIFO_IS_VALUE32 w = true ∧ FIFO_UNPACK_VALUE32_NEEDEXTRA w = true) ∧
    (classify w = MessageKind.Address ↔
      FIFO_IS_ADDRESS w = true ∧ FIFO_IS_SPECIAL_COMMAND w = false) ∧
    (classify w = MessageKind.DataHeader ↔ FIFO_IS_DATA w = true) := by
  refine ⟨⟨classify w, rfl, fun y hy => hy.symm⟩, ?_⟩
  rw [show FIFO_ADDRESSBIT = (134217728 : Nat) by decide,
    show FIFO_IMMEDIATEBIT = (67108864 : Nat) by decide]
  have hsp := is_special_iff w
  have hv := is_value32_iff w
  have ha := is_address_iff w
  have hd := is_data_iff w
  have he := unpack_needextra_iff w
  have hb27 := and_two_pow_ne_zero_iff w 27
  have hb26 := and_two_pow_ne_zero_iff w 26
  norm_num at hsp hv ha hd he hb27 hb26
  rcases Nat.mod_two_eq_zero_or_one (w / 134217728) with h27 | h27 <;>
    rcases Nat.mod_two_eq_zero_or_one (w / 67108864) with h26 | h26 <;>
      rcases Nat.mod_two_eq_zero_or_one (w / 33554432) with h25 | h25 <;>
        simp [h27, h26, h25] at hsp hv ha hd he hb27 hb26 <;>
        simp [classify, hsp, hv, ha, hd, he, hb27, hb26]

/-- Witness for C1 at the word `0x0C04000B` (both flag bits set). -/
theorem classify_exclusive_witness :
    (0x0C04000B : Nat) < 2 ^ 32 ∧
    ((∃! k : MessageKind, classify 0x0C04000B = k) ∧
     ((0x0C04000B : Nat) &&& FIFO_ADDRESSBIT ≠ 0 →
       (0x0C04000B : Nat) &&& FIFO_IMMEDIATEBIT ≠ 0 →
       classify 0x0C04000B = MessageKind.SpecialCommand) ∧
     (classify 0x0C04000B = MessageKind.SpecialCommand ↔
       FIFO_IS_SPECIAL_COMMAND 0x0C04000B = true) ∧
     (classify 0x0C04000B = MessageKind.SmallImmediate ↔
       FIFO_IS_VALUE32 0x0C04000B = true ∧
         FIFO_UNPACK_VALUE32_NEEDEXTRA 0x0C04000B = false) ∧
     (classify 0x0C04000B = MessageKind.LargeImmediateHeader ↔
       FIFO_IS_VALUE32 0x0C04000B = true ∧
         FIFO_UNPACK_VALUE32_NEEDEXTRA 0x0C04000B = true) ∧
     (classify 0x0C04000B = MessageKind.Address ↔
       FIFO_IS_ADDRESS 0x0C04000B = true ∧
         FIFO_IS_SPECIAL_COMMAND 0x0C04000B = false) ∧
     (classify 0x0C04000B = MessageKind.DataHeader ↔
       FIFO_IS_DATA 0x0C04000B = true)) :=
  ⟨by decide, classify_exclusive 0x0C04000B (by decide)⟩

/-- C6: reset-coordinator behaviour of `__libnds_exit` on the ARM7 role —
the error hook fires exactly when `rc` is non-zero and before anything
else; with a matching boot signature exactly one word is handed to
`fifoInternalSend`, the special-command word carrying
`FIFO_ARM7_REQUESTS_ARM9_RESET`, no shutdown happens, and the trace ends in
the terminal spin; with a mismatched signature `systemShutDown` is called
and nothing is ever sent. -/
theorem libnds_exit_arm7_behaviour (rc : Int) (bootcode : Bootstub)
    (BOOTSIG : Nat) :
    ((libnds_exit_arm7 rc bootcode BOOTSIG).filter ExitEvent.isError =
      if rc = 0 then [] else [ExitEvent.errorExit rc]) ∧
    (rc ≠ 0 → (libnds_exit_arm7 rc bootcode BOOTSIG).head? =
      some (ExitEvent.errorExit rc)) ∧
    (bootcode.bootsig = BOOTSIG →
      (libnds_exit_arm7 rc bootcode BOOTSIG).filter ExitEvent.isSend =
        [ExitEvent.fifoSend arm7ResetCommand 0 none] ∧
      (libnds_exit_arm7 rc bootcode BOOTSIG).filter ExitEvent.isShutDown = [] ∧
      (libnds_exit_arm7 rc bootcode BOOTSIG).getLast? =
        some ExitEvent.haltLoop) ∧
    (bootcode.bootsig ≠ BOOTSIG →
      (libnds_exit_arm7 rc bootcode BOOTSIG).filter ExitEvent.isSend = [] ∧
      (libnds_exit_arm7 rc bootcode BOOTSIG).filter ExitEvent.isShutDown =
        [ExitEvent.shutDown]) ∧
    FIFO_IS_SPECIAL_COMMAND arm7ResetCommand = true ∧
    arm7ResetCommand &&& FIFO_ADDRESSBIT ≠ 0 ∧
    arm7ResetCommand &&& FIFO_IMMEDIATEBIT ≠ 0 ∧
    arm7ResetCommand &&& FIFO_SPECIAL_COMMAND_MASK =
      FIFO_ARM7_REQUESTS_ARM9_RESET ∧
    FIFO_ARM7_REQUESTS_ARM9_RESET = 0x4000B := by
  refine ⟨?_, ?_, ?_, ?_, by decide, by decide, by decide, by decide, by decide⟩ <;>
    unfold libnds_exit_arm7 <;>
      by_cases h0 : rc = 0 <;> by_cases hs : bootcode.bootsig = BOOTSIG <;>
        simp [h0, hs, ExitEvent.isError, ExitEvent.isSend, ExitEvent.isShutDown,
          List.getLast?]

end LibndsFifo
